import Mathlib

/-!
Shallow embedding of `src/widgeon/utils/animations.py` (the value-animation
core of the `widgets` repository) over the real numbers.

Python floats are modelled as reals.  Every Python-level failure is made
explicit: a call that raises an exception (`math.log` on a non-positive
argument, scalar division by zero) is modelled as `none`, and the two spots
where a numpy array division by zero would silently produce non-finite
values (which ℝ cannot represent) are modelled as `none` as well, each
marked by a comment at the corresponding guard.  Everything else is a
direct transcription of the source, expression by expression.
-/

namespace Widgeon

noncomputable section

/-- Model of `np.sign` on real scalars: `-1`, `0` or `1` by the sign of the
argument. -/
def np_sign (x : ℝ) : ℝ :=
  if x < 0 then -1 else if 0 < x then 1 else 0

/-- Transcription of `moving_toward(value, change_rate, drag)`:
`value - change_rate / math.log(drag)`. -/
def moving_toward (value change_rate drag : ℝ) : ℝ :=
  value - change_rate / Real.log drag

/-- Transcription of the scalar core `_animate_value`.  The result is
`none` exactly when the Python code raises:
* `drag ≤ 0`: `math.log` raises `ValueError`;
* `log drag = 0` (that is `drag = 1`): `change_rate / math.log(drag)`
  raises `ZeroDivisionError` on Python scalars;
* in the approach branch, `acceleration_modifier + 1 = 0` makes
  `abs(change_rate) / (acceleration_modifier + 1)` raise and
  `acceleration_modifier = 0` makes `1 / acceleration_modifier` raise;
* in the final clamp, `delta_time = 0` makes
  `(target - value) / delta_time` raise.
All real powers (`np.power`, `**`) are `Real.rpow`; every base reached
under the claims' hypotheses is nonnegative, matching numpy. -/
def animate_value (value change_rate target acceleration acceleration_modifier
    drag delta_time : ℝ) : Option ℝ :=
  if drag ≤ 0 then none
  else if Real.log drag = 0 then none
  else
    let moving_twd := moving_toward value change_rate drag
    if moving_twd < target - 0.01 then
      if acceleration_modifier + 1 = 0 then none
      else if acceleration_modifier = 0 then none
      else
        let progress := np_sign change_rate *
          (|change_rate| / (acceleration_modifier + 1)) ^ (1 / acceleration_modifier)
        let progress := progress + delta_time * acceleration
        let change_rate := np_sign progress * (acceleration_modifier + 1) *
          |progress| ^ acceleration_modifier
        let change_rate :=
          if moving_toward value change_rate drag > target then
            (value - target) * Real.log drag
          else change_rate
        if value + change_rate * delta_time > target then
          if delta_time = 0 then none
          else some ((target - value) / delta_time)
        else some change_rate
    else
      let change_rate :=
        if target + change_rate > moving_twd ∧ moving_twd > target then
          (value - target) * Real.log drag
        else change_rate
      some (change_rate * drag ^ delta_time)

/-- Dot product of two real vectors, as used by `tick`
(`a.dot(b)` on numpy arrays). -/
def dot (a b : List ℝ) : ℝ :=
  (List.zipWith (· * ·) a b).sum

/-- State of an `AnimVec` instance: the three parallel vectors, the three
mode flags, and the three per-instance tuning overrides (`none` models the
Python `None`, which makes `tick` fall back to the class defaults). -/
structure AnimVec where
  values : List ℝ
  target : List ℝ
  change : List ℝ
  animate : Bool
  loose : Bool
  record_change : Bool
  acceleration_opt : Option ℝ
  acceleration_modifier_opt : Option ℝ
  drag_opt : Option ℝ

/-- Class default `AnimVec.default_acceleration = 3000`. -/
def default_acceleration : ℝ := 3000

/-- Class default `AnimVec.default_acceleration_modifier = 1.3`. -/
def default_acceleration_modifier : ℝ := 1.3

/-- Class default `AnimVec.default_drag = 10 ** (-7)`. -/
def default_drag : ℝ := 1 / 10 ^ (7 : ℕ)

/-- Constructor `AnimVec(length=N)` with no initial vector and no tuning
overrides: zero values, target a copy of values, zero change. -/
def AnimVec.mk_length (length : ℕ) : AnimVec :=
  { values := List.replicate length 0
    target := List.replicate length 0
    change := List.replicate length 0
    animate := true
    loose := false
    record_change := true
    acceleration_opt := none
    acceleration_modifier_opt := none
    drag_opt := none }

/-- Transcription of `AnimVec.tick(delta)`.  `none` marks the points where
the Python call does not produce a finite successor state:
* the approach-branch exceptions inside `_animate_value` (see
  `animate_value`), and `math.log` on `drag ≤ 0`;
* in the loose branch with `log drag = 0`, numpy evaluates
  `self._change / math.log(drag)` as a division by zero, emitting
  non-finite components (inf/nan), which ℝ cannot represent;
* in the instant branch with `record_change` and `delta = 0`, numpy
  evaluates `(self._target - self._values) / delta` the same way.
All other lines are transcribed one for one, including the evaluation
order of the blend weights `a` and `b` (the second normalisation uses the
already-updated `a`). -/
def AnimVec.tick (s : AnimVec) (delta : ℝ) : Option AnimVec :=
  let acceleration := s.acceleration_opt.getD default_acceleration
  let acceleration_modifier :=
    s.acceleration_modifier_opt.getD default_acceleration_modifier
  let drag := s.drag_opt.getD default_drag
  if s.animate then
    if s.loose then
      if drag ≤ 0 then none
      else if Real.log drag = 0 then none
      else
        let change := s.change.map (fun c => c * drag ^ delta)
        let target :=
          List.zipWith (· - ·) s.values (change.map (fun c => c / Real.log drag))
        let values :=
          List.zipWith (· + ·) s.values (change.map (fun c => c * delta))
        some { s with change := change, target := target, values := values }
    else
      let difference := List.zipWith (· - ·) s.target s.values
      let distance := Real.sqrt (dot difference difference)
      let distance := if distance = 0 then 10 / 10 ^ (100 : ℕ) else distance
      let c_dot_d := dot s.change difference
      let d_dot_d := dot difference difference
      let c_dot_c := dot s.change s.change
      let abs_c := Real.sqrt c_dot_c
      let num := c_dot_d * |c_dot_d|
      let den := d_dot_d * abs_c
      let change := if den ≠ 0 then num / den else 0
      (animate_value 0 change distance acceleration acceleration_modifier
          drag delta).map
        (fun ch =>
          let change := difference.map (fun d => ch * d / distance)
          let values :=
            List.zipWith (· + ·) s.values (change.map (fun c => c * delta))
          { s with change := change, values := values })
  else
    if s.record_change then
      let a : ℝ := 1
      let b : ℝ := 2
      let a := a / (a + b)
      let b := b / (a + b)
      if delta = 0 then none
      else
        let new_change :=
          (List.zipWith (· - ·) s.target s.values).map (fun c => c / delta)
        let change :=
          if dot new_change new_change > dot s.change s.change then new_change
          else
            List.zipWith (· + ·) (s.change.map (fun c => c * a))
              (new_change.map (fun c => c * b))
        some { s with change := change, values := s.target }
    else
      some { s with change := List.replicate s.values.length 0,
                    values := s.target }

/-- Transcription of `AnimVec.jump()` with no axis: snap values to target,
zero the change vector (`np.zeros(len(self))` is taken after the values
were overwritten by the target copy). -/
def AnimVec.jump (s : AnimVec) : AnimVec :=
  { s with values := s.target, change := List.replicate s.target.length 0 }

/-- Transcription of `AnimVec.jump(i)` for a single axis.  Out-of-range
indices raise `IndexError` in Python without mutating anything; `List.set`
and `getD` are no-ops there, so lengths agree either way. -/
def AnimVec.jump_axis (s : AnimVec) (i : ℕ) : AnimVec :=
  { s with values := s.values.set i (s.target.getD i 0),
           change := s.change.set i 0 }

/-- Transcription of `AnimVec.cap_change(value)` with no axis:
`self._change[np.abs(self._change) > value] = value` writes `value`
(sign discarded) into every component whose magnitude exceeds `value`. -/
def AnimVec.cap_change (s : AnimVec) (value : ℝ) : AnimVec :=
  { s with change := s.change.map (fun c => if |c| > value then value else c) }

/-- Transcription of `AnimVec.cap_change(value, i)` for a single axis,
exactly as written in the source: the test is on the signed component
(`self.change[i] > value`, no absolute value) and the assignment writes
the index (`self._change[i] = i`), not the limit. -/
def AnimVec.cap_change_axis (s : AnimVec) (value : ℝ) (i : ℕ) : AnimVec :=
  { s with change :=
      if s.change.getD i 0 > value then s.change.set i (i : ℝ) else s.change }

/-- Transcription of `AnimVec.get_axis_from(source, axis, source_axis)`,
with `source_axis` already resolved by the caller (Python defaults it to
`axis`). -/
def AnimVec.get_axis_from (s source : AnimVec) (axis source_axis : ℕ) : AnimVec :=
  { s with change := s.change.set axis (source.change.getD source_axis 0),
           values := s.values.set axis (source.values.getD source_axis 0),
           target := s.target.set axis (source.target.getD source_axis 0) }

/-- Transcription of `AnimVec.distance_to_target()`. -/
def AnimVec.distance_to_target (s : AnimVec) : ℝ :=
  Real.sqrt (dot (List.zipWith (· - ·) s.target s.values)
    (List.zipWith (· - ·) s.target s.values))

/-- Transcription of the `animate` property setter: the flag is always
stored; assigning `False` additionally zeroes the change vector and snaps
the target to a copy of the current values. -/
def AnimVec.set_animate (s : AnimVec) (value : Bool) : AnimVec :=
  if value then { s with animate := value }
  else { s with animate := value,
                change := List.replicate s.values.length 0,
                target := s.values }

/-- Transcription of the `acceleration` property setter:
`value if value > 0 else 0`. -/
def AnimVec.set_acceleration (s : AnimVec) (value : ℝ) : AnimVec :=
  { s with acceleration_opt := some (if value > 0 then value else 0) }

/-- Transcription of the `acceleration_modifier` property setter:
`value if value > 0 else 0`. -/
def AnimVec.set_acceleration_modifier (s : AnimVec) (value : ℝ) : AnimVec :=
  { s with acceleration_modifier_opt := some (if value > 0 then value else 0) }

/-- Transcription of the `drag` property setter:
`10 ** (-value) if value > 0 else 1`. -/
def AnimVec.set_drag (s : AnimVec) (value : ℝ) : AnimVec :=
  { s with drag_opt := some (if value > 0 then (10 : ℝ) ^ (-value) else 1) }

/-- Transcription of `AnimVec.__setitem__`: indexed assignment writes into
the target vector. -/
def AnimVec.set_item (s : AnimVec) (i : ℕ) (value : ℝ) : AnimVec :=
  { s with target := s.target.set i value }

/-- Length invariant of the data model: the three parallel vectors all
have length `N`. -/
def lenOK (s : AnimVec) (N : ℕ) : Prop :=
  s.values.length = N ∧ s.target.length = N ∧ s.change.length = N

/-- Concrete instant-mode state mid-motion: values `[0]`, target `[1]`,
change `[1]`, `animate` off, `record_change` on. -/
def s_blend : AnimVec :=
  { values := [0], target := [1], change := [1],
    animate := false, loose := false, record_change := true,
    acceleration_opt := none, acceleration_modifier_opt := none,
    drag_opt := none }

/-- Concrete state with a negative change component `[-5]`. -/
def s_cap : AnimVec :=
  { values := [0], target := [0], change := [-5],
    animate := true, loose := false, record_change := true,
    acceleration_opt := none, acceleration_modifier_opt := none,
    drag_opt := none }

/-- Concrete loose-mode state with nonzero change and stored drag exactly
`1` (the value the drag setter stores for non-positive input). -/
def s_loose1 : AnimVec :=
  { values := [0], target := [0], change := [1],
    animate := true, loose := true, record_change := true,
    acceleration_opt := none, acceleration_modifier_opt := none,
    drag_opt := some 1 }

/-- Concrete instant-mode state with a pending target `[2]`. -/
def s_instant : AnimVec :=
  { values := [0], target := [2], change := [0],
    animate := false, loose := false, record_change := true,
    acceleration_opt := none, acceleration_modifier_opt := none,
    drag_opt := none }

/-- Concrete settled tethered state: values and target both `[5]`, zero
change, stored drag `exp (-1) ∈ (0, 1)`. -/
def s_settled : AnimVec :=
  { values := [5], target := [5], change := [0],
    animate := true, loose := false, record_change := true,
    acceleration_opt := none, acceleration_modifier_opt := none,
    drag_opt := some (Real.exp (-1)) }

end

/-! ## Shared helper lemmas -/

lemma exp_neg_one_pos : (0 : ℝ) < Real.exp (-1) := Real.exp_pos _

lemma exp_neg_one_lt_one : Real.exp (-1) < 1 := by
  have h := Real.exp_lt_exp.mpr (show (-1 : ℝ) < 0 by norm_num)
  simp only [Real.exp_zero] at h
  exact h

lemma log_exp_neg_one : Real.log (Real.exp (-1)) = -1 := Real.log_exp _

lemma zipWith_sub_self (l : List ℝ) :
    List.zipWith (· - ·) l l = List.replicate l.length 0 := by
  induction l with
  | nil => rfl
  | cons x xs ih => simp [ih, List.replicate_succ]

lemma dot_replicate_zero (n : ℕ) (l : List ℝ) :
    dot (List.replicate n 0) l = 0 := by
  induction n generalizing l with
  | zero => simp [dot]
  | succ n ih =>
    cases l with
    | nil => simp [dot]
    | cons x xs => simpa [dot, List.replicate_succ] using ih xs

lemma zipWith_add_replicate (l : List ℝ) :
    List.zipWith (· + ·) l (List.replicate l.length 0) = l := by
  induction l with
  | nil => rfl
  | cons x xs ih => simp [ih, List.replicate_succ]

/-! ## Claim C1 -/

/-- Claim C1: for every call to `_animate_value` with `delta_time > 0`,
stored drag in `(0, 1)`, and the approach phase taken (moving-toward
projection below `target - 0.01`), any returned rate `r` satisfies
`value + r * delta_time ≤ target`: a single step never overshoots the
target, whatever the size of `delta_time`. -/
theorem animate_value_no_overshoot
    (value c target acc am drag δ r : ℝ)
    (hδ : 0 < δ) (h0 : 0 < drag) (h1 : drag < 1)
    (happ : moving_toward value c drag < target - 0.01)
    (hr : animate_value value c target acc am drag δ = some r) :
    value + r * δ ≤ target := by
  have hlog := Real.log_neg h0 h1
  simp only [animate_value] at hr
  rw [if_neg (not_le.mpr h0), if_neg hlog.ne, if_pos happ] at hr
  split_ifs at hr
  all_goals simp only [Option.some.injEq] at hr
  all_goals subst hr
  all_goals first
  | (rw [div_mul_cancel₀ _ (ne_of_gt hδ)]; linarith)
  | (push_neg at *; linarith)

/-- Evaluation of the scalar solver on the approach-phase input
`value = 0`, `rate = 0`, `target = 1`, `acceleration = 1`,
`acceleration_modifier = 1`, `drag = exp (-1)`, `delta_time = 1`:
the overshoot clamp fires and the returned rate is exactly `1`. -/
lemma animate_value_eval_main :
    animate_value 0 0 1 1 1 (Real.exp (-1)) 1 = some 1 := by
  have hle := exp_neg_one_pos.not_le
  norm_num [animate_value, moving_toward, np_sign, log_exp_neg_one, hle,
    Real.one_rpow, Real.rpow_one]

/-- Witness for claim C1 at the input of `animate_value_eval_main`. -/
theorem animate_value_no_overshoot_witness :
    ((0 : ℝ) < 1 ∧ (0 : ℝ) < Real.exp (-1) ∧ Real.exp (-1) < 1 ∧
      moving_toward 0 0 (Real.exp (-1)) < 1 - 0.01 ∧
      animate_value 0 0 1 1 1 (Real.exp (-1)) 1 = some 1) ∧
    (0 : ℝ) + 1 * 1 ≤ 1 :=
  ⟨⟨by norm_num, exp_neg_one_pos, exp_neg_one_lt_one,
    by norm_num [moving_toward], animate_value_eval_main⟩,
   animate_value_no_overshoot 0 0 1 1 1 (Real.exp (-1)) 1 1 (by norm_num)
     exp_neg_one_pos exp_neg_one_lt_one (by norm_num [moving_toward])
     animate_value_eval_main⟩

/-! ## Claim C2 -/

/-- Counterexample to claim C2: two finite inputs with stored drag
`exp (-1) ∈ (0, 1)`, `acceleration ≥ 0` and `acceleration_modifier ≥ 0`
on which `_animate_value` raises rather than returning a rate.  With
`acceleration_modifier = 0` (the value the setter stores for non-positive
input) the approach branch evaluates `1 / acceleration_modifier` and
raises `ZeroDivisionError`; with `delta_time = 0` the final clamp
evaluates `(target - value) / delta_time` and raises as well. -/
theorem animate_value_raises :
    ((0 : ℝ) < Real.exp (-1) ∧ Real.exp (-1) < 1) ∧
    animate_value 0 0 1 1 0 (Real.exp (-1)) 1 = none ∧
    animate_value 1 (-10) 0 0 1 (Real.exp (-1)) 0 = none := by
  have hle := exp_neg_one_pos.not_le
  refine ⟨⟨exp_neg_one_pos, exp_neg_one_lt_one⟩, ?_, ?_⟩
  · norm_num [animate_value, moving_toward, log_exp_neg_one, hle]
  · norm_num [animate_value, moving_toward, np_sign, log_exp_neg_one, hle,
      Real.rpow_one]

/-- Claim C2 as amended: `_animate_value` returns a (finite) rate for
every input with stored drag in `(0, 1)`, `acceleration ≥ 0`,
`acceleration_modifier > 0` — strictly positive, since the value `0`
stored by the setters makes the approach branch divide by zero — and
`delta_time ≠ 0`; and the degenerate case rate `= 0`, distance `= 0`
returns a rate of exactly `0`. -/
theorem animate_value_total (value c target acc am drag δ : ℝ)
    (h0 : 0 < drag) (h1 : drag < 1) (hacc : 0 ≤ acc) (ham : 0 < am)
    (hδ : δ ≠ 0) :
    (animate_value value c target acc am drag δ).isSome ∧
    animate_value 0 0 0 acc am drag δ = some 0 := by
  have hlog := Real.log_neg h0 h1
  constructor
  · simp only [animate_value]
    rw [if_neg (not_le.mpr h0), if_neg hlog.ne]
    split_ifs
    all_goals first
    | rfl
    | linarith
    | simp_all
  · simp only [animate_value]
    rw [if_neg (not_le.mpr h0), if_neg hlog.ne]
    rw [if_neg (by norm_num [moving_toward])]
    rw [if_neg (by norm_num [moving_toward])]
    norm_num

/-- Witness for the amended claim C2 at
`value = 0`, `rate = 2`, `target = 5`, `acceleration = 1`,
`acceleration_modifier = 1`, `drag = exp (-1)`, `delta_time = 1`. -/
theorem animate_value_total_witness :
    ((0 : ℝ) < Real.exp (-1) ∧ Real.exp (-1) < 1 ∧ (0 : ℝ) ≤ 1 ∧
      (0 : ℝ) < 1 ∧ (1 : ℝ) ≠ 0) ∧
    (animate_value 0 2 5 1 1 (Real.exp (-1)) 1).isSome ∧
    animate_value 0 0 0 1 1 (Real.exp (-1)) 1 = some 0 :=
  ⟨⟨exp_neg_one_pos, exp_neg_one_lt_one, by norm_num, by norm_num,
    by norm_num⟩,
   animate_value_total 0 2 5 1 1 (Real.exp (-1)) 1 exp_neg_one_pos
     exp_neg_one_lt_one (by norm_num) (by norm_num) (by norm_num)⟩

/-! ## Claim C3 -/

/-- Counterexample to claim C3: in the coast phase, on an input inside
the small-overshoot band (`target + rate > projection > target`), the
code first snaps the rate to the coast-to-target rate and then still
multiplies it by `drag ^ delta_time`, so the returned rate is
`(value - target) * ln drag * drag ^ delta_time`, not exactly
`(value - target) * ln drag` as the claim states.  At `value = 0`,
`rate = 1`, `target = 1/2`, `drag = exp (-1)`, `delta_time = 1` the code
returns `1/2 * exp (-1)` while the claim demands `1/2`. -/
theorem animate_value_band_decayed :
    (¬ moving_toward 0 1 (Real.exp (-1)) < (1 : ℝ) / 2 - 0.01) ∧
    ((1 : ℝ) / 2 + 1 > moving_toward 0 1 (Real.exp (-1)) ∧
      moving_toward 0 1 (Real.exp (-1)) > (1 : ℝ) / 2) ∧
    animate_value 0 1 (1 / 2) 0 0 (Real.exp (-1)) 1 =
      some (1 / 2 * Real.exp (-1)) ∧
    (1 : ℝ) / 2 * Real.exp (-1) ≠ (0 - 1 / 2) * Real.log (Real.exp (-1)) := by
  have hle := exp_neg_one_pos.not_le
  refine ⟨by norm_num [moving_toward, log_exp_neg_one], ⟨?_, ?_⟩, ?_, ?_⟩
  · norm_num [moving_toward, log_exp_neg_one]
  · norm_num [moving_toward, log_exp_neg_one]
  · norm_num [animate_value, moving_toward, log_exp_neg_one, hle,
      Real.rpow_one]
  · norm_num [log_exp_neg_one]

/-- Claim C3 as amended: in the coast/overrun phase the two outcomes are
exclusive, but both are then decayed one step: inside the band the
returned rate is the coast-to-target rate multiplied by
`drag ^ delta_time`, otherwise it is `current_rate * drag ^ delta_time`. -/
theorem animate_value_coast (value c target acc am drag δ : ℝ)
    (h0 : 0 < drag) (h1 : drag < 1)
    (hph : ¬ moving_toward value c drag < target - 0.01) :
    animate_value value c target acc am drag δ =
      some ((if target + c > moving_toward value c drag ∧
                moving_toward value c drag > target
             then (value - target) * Real.log drag
             else c) * drag ^ δ) := by
  have hlog := Real.log_neg h0 h1
  simp only [animate_value]
  rw [if_neg (not_le.mpr h0), if_neg hlog.ne, if_neg hph]

/-- Witness for the amended claim C3 at the settled coast input
`value = 0`, `rate = 0`, `target = 0`, `drag = exp (-1)`,
`delta_time = 1`, where the free-coast outcome applies and decays the
zero rate to zero. -/
theorem animate_value_coast_witness :
    ((0 : ℝ) < Real.exp (-1) ∧ Real.exp (-1) < 1 ∧
      ¬ moving_toward 0 0 (Real.exp (-1)) < 0 - 0.01) ∧
    animate_value 0 0 0 3 2 (Real.exp (-1)) 1 = some 0 :=
  ⟨⟨exp_neg_one_pos, exp_neg_one_lt_one, by norm_num [moving_toward]⟩, by
    have h := animate_value_coast 0 0 0 3 2 (Real.exp (-1)) 1
      exp_neg_one_pos exp_neg_one_lt_one (by norm_num [moving_toward])
    simpa [moving_toward] using h⟩

/-! ## Claim C4 -/

/-- Claim C4, evaluation at the failing input (values `[0]`, target
`[1]`, change `[1]`, `animate` off, `record_change` on, `delta = 1`): the
estimate is `[1]`, its squared magnitude does not exceed the old one, and
the code blends with weights `1/3` and `6/7` — the second normalisation
`b = b / (a + b)` reuses the already-updated `a = 1/3` — giving change
`[25/21]`, not the claimed `old * (1/3) + estimate * (2/3) = [1]`. -/
theorem tick_blend_weights :
    AnimVec.tick s_blend 1 =
      some { s_blend with change := [25 / 21], values := [1] } ∧
    (25 : ℝ) / 21 ≠ 1 * (1 / 3) + 1 * (2 / 3) := by
  constructor
  · simp [AnimVec.tick, s_blend, dot]
    norm_num
  · norm_num

/-! ## Claim C5 -/

/-- Claim C5, evaluation at the failing input (change `[-5]`,
`cap_change(3, 0)`): the per-axis branch tests the signed component
`change[i] > value` instead of its magnitude, so the component `-5` is
left untouched and its magnitude `5` still exceeds the limit `3`. -/
theorem cap_change_axis_not_capped :
    (AnimVec.cap_change_axis s_cap 3 0).change = [(-5 : ℝ)] ∧
    ¬ |(-5 : ℝ)| ≤ 3 := by
  constructor
  · norm_num [AnimVec.cap_change_axis, s_cap]
  · norm_num

/-! ## Claim C6 -/

/-- Counterexample to claim C6: with `animate` and `loose` set and stored
drag exactly `1`, `tick` does not produce the claimed instantaneous-stop
state (change zeroed, target snapped to values).  The loose branch has no
drag-one guard: it multiplies the change by `1 ^ delta` (leaving `[1]`
unchanged) and then divides by `ln 1 = 0` in the target update, which
yields no finite state (modelled as `none`). -/
theorem tick_drag_one_not_stop :
    ¬ ∃ s', AnimVec.tick s_loose1 1 = some s' ∧
        s'.change = List.replicate 1 0 ∧ s'.target = s'.values := by
  have h : AnimVec.tick s_loose1 1 = none := by
    simp [AnimVec.tick, s_loose1, Real.log_one]
  simp [h]

/-- Claim C6 as amended: when `tick` runs the loose branch with stored
drag exactly `1`, no instantaneous-stop handling exists; the change
vector is multiplied by `drag ^ delta = 1` and the target update divides
by `ln 1 = 0`, so the call produces no finite successor state (`none` in
this model). -/
theorem tick_loose_drag_one_none (s : AnimVec) (δ : ℝ)
    (ha : s.animate = true) (hl : s.loose = true)
    (hd : s.drag_opt.getD default_drag = 1) :
    AnimVec.tick s δ = none := by
  simp [AnimVec.tick, ha, hl, hd, Real.log_one]

/-- Witness for the amended claim C6 at the state `s_loose1`. -/
theorem tick_loose_drag_one_none_witness :
    (s_loose1.animate = true ∧ s_loose1.loose = true ∧
      s_loose1.drag_opt.getD default_drag = 1) ∧
    AnimVec.tick s_loose1 1 = none :=
  ⟨⟨rfl, rfl, rfl⟩, tick_loose_drag_one_none s_loose1 1 rfl rfl rfl⟩

/-! ## Claim C7 -/

/-- Claim C7: assigning `False` to the `animate` property immediately
zeroes the change vector and snaps the target to a copy of the current
values, leaving the values themselves unchanged; assigning `True`
performs no side effect on any of the three vectors. -/
theorem set_animate_spec (s : AnimVec) :
    (AnimVec.set_animate s false).change = List.replicate s.values.length 0 ∧
    (AnimVec.set_animate s false).target = s.values ∧
    (AnimVec.set_animate s false).values = s.values ∧
    (AnimVec.set_animate s true).values = s.values ∧
    (AnimVec.set_animate s true).target = s.target ∧
    (AnimVec.set_animate s true).change = s.change := by
  simp [AnimVec.set_animate]

/-! ## Claim C8 -/

/-- Claim C8: with `animate` false, a single `tick(delta)` with
`delta ≠ 0` produces a state whose values equal its target exactly, and a
second consecutive `tick(delta)` leaves the values unchanged — instant
mode is idempotent on values, for both settings of `record_change`
(which is quantified over through `s`). -/
theorem tick_instant_idempotent (s : AnimVec) (δ : ℝ)
    (ha : s.animate = false) (hδ : δ ≠ 0) :
    (AnimVec.tick s δ).elim False (fun s₁ =>
      s₁.values = s₁.target ∧
      (AnimVec.tick s₁ δ).elim False (fun s₂ => s₂.values = s₁.values)) := by
  cases hrc : s.record_change
  · simp [AnimVec.tick, ha, hrc, hδ]
  · simp [AnimVec.tick, ha, hrc, hδ]

/-- Witness for claim C8 at the state `s_instant` with `delta = 1`. -/
theorem tick_instant_idempotent_witness :
    (s_instant.animate = false ∧ (1 : ℝ) ≠ 0) ∧
    (AnimVec.tick s_instant 1).elim False (fun s₁ =>
      s₁.values = s₁.target ∧
      (AnimVec.tick s₁ 1).elim False (fun s₂ => s₂.values = s₁.values)) :=
  ⟨⟨rfl, by norm_num⟩, tick_instant_idempotent s_instant 1 rfl (by norm_num)⟩

/-! ## Claim C9 -/

/-- Claim C9: an animator constructed with length `N` has all three
vectors of length `N`, and the equality of the three lengths with `N` is
preserved by every public operation — `tick` (all branches, whenever it
returns a state), `jump` with and without an axis, `cap_change` with and
without an axis, `get_axis_from`, indexed target assignment, and the
`animate` setter. -/
theorem lengths_invariant (N : ℕ) (s src : AnimVec) (δ lim v : ℝ)
    (i j : ℕ) (b : Bool) (h : lenOK s N) :
    lenOK (AnimVec.mk_length N) N ∧
    (AnimVec.tick s δ).elim True (fun s' => lenOK s' N) ∧
    lenOK (AnimVec.jump s) N ∧
    lenOK (AnimVec.jump_axis s i) N ∧
    lenOK (AnimVec.cap_change s lim) N ∧
    lenOK (AnimVec.cap_change_axis s lim i) N ∧
    lenOK (AnimVec.get_axis_from s src i j) N ∧
    lenOK (AnimVec.set_item s i v) N ∧
    lenOK (AnimVec.set_animate s b) N := by
  obtain ⟨h1, h2, h3⟩ := h
  refine ⟨?_, ?_, ?_, ?_, ?_, ?_, ?_, ?_, ?_⟩
  · simp [lenOK, AnimVec.mk_length]
  · simp only [AnimVec.tick]
    cases ha : s.animate
    · simp only [Bool.false_eq_true, if_false]
      cases hrc : s.record_change
      · simp [lenOK, h1, h2, h3]
      · simp only [if_true]
        split_ifs with hd hgt
        · trivial
        all_goals simp [lenOK, List.length_zipWith, List.length_map,
          min_self, h1, h2, h3]
    · simp only [if_true]
      cases hl : s.loose
      · simp only [Bool.false_eq_true, if_false]
        cases hav : animate_value 0
            (if dot (List.zipWith (· - ·) s.target s.values)
                  (List.zipWith (· - ·) s.target s.values) *
                Real.sqrt (dot s.change s.change) ≠ 0 then
              dot s.change (List.zipWith (· - ·) s.target s.values) *
                |dot s.change (List.zipWith (· - ·) s.target s.values)| /
                (dot (List.zipWith (· - ·) s.target s.values)
                    (List.zipWith (· - ·) s.target s.values) *
                  Real.sqrt (dot s.change s.change))
            else 0)
            (if Real.sqrt (dot (List.zipWith (· - ·) s.target s.values)
                  (List.zipWith (· - ·) s.target s.values)) = 0 then
              10 / 10 ^ (100 : ℕ)
            else
              Real.sqrt (dot (List.zipWith (· - ·) s.target s.values)
                (List.zipWith (· - ·) s.target s.values)))
            (s.acceleration_opt.getD default_acceleration)
            (s.acceleration_modifier_opt.getD default_acceleration_modifier)
            (s.drag_opt.getD default_drag) δ with
        | none => simp
        | some ch => simp [lenOK, List.length_zipWith, h1, h2, h3]
      · simp only [if_true]
        split_ifs with hd hlog
        · trivial
        · trivial
        · simp [lenOK, List.length_zipWith, h1, h2, h3]
  · simp [lenOK, AnimVec.jump, h1, h2, h3]
  · simp [lenOK, AnimVec.jump_axis, h1, h2, h3]
  · simp [lenOK, AnimVec.cap_change, h1, h2, h3]
  · unfold AnimVec.cap_change_axis
    split_ifs <;> simp [lenOK, h1, h2, h3]
  · simp [lenOK, AnimVec.get_axis_from, h1, h2, h3]
  · simp [lenOK, AnimVec.set_item, h1, h2, h3]
  · unfold AnimVec.set_animate
    split_ifs <;> simp [lenOK, h1, h2, h3]

/-- Witness for claim C9 at `N = 1` and the state `s_instant`. -/
theorem lengths_invariant_witness :
    lenOK s_instant 1 ∧
    (lenOK (AnimVec.mk_length 1) 1 ∧
      (AnimVec.tick s_instant 1).elim True (fun s' => lenOK s' 1) ∧
      lenOK (AnimVec.jump s_instant) 1 ∧
      lenOK (AnimVec.jump_axis s_instant 0) 1 ∧
      lenOK (AnimVec.cap_change s_instant 1) 1 ∧
      lenOK (AnimVec.cap_change_axis s_instant 1 0) 1 ∧
      lenOK (AnimVec.get_axis_from s_instant s_instant 0 0) 1 ∧
      lenOK (AnimVec.set_item s_instant 0 1) 1 ∧
      lenOK (AnimVec.set_animate s_instant true) 1) :=
  ⟨⟨rfl, rfl, rfl⟩,
   lengths_invariant 1 s_instant s_instant 1 1 1 0 0 true ⟨rfl, rfl, rfl⟩⟩

/-! ## Claim C10 -/

/-- Evaluation of the scalar solver at the settled tethered call: zero
rate, target distance equal to the reserved epsilon `10e-100`.  The
approach test fails (the epsilon is below the `0.01` tolerance), the
overshoot band is empty, and the zero rate decays to zero. -/
lemma animate_value_settled (acc am drag δ : ℝ)
    (h0 : 0 < drag) (h1 : drag < 1) :
    animate_value 0 0 (10 / 10 ^ (100 : ℕ)) acc am drag δ = some 0 := by
  have hlog := Real.log_neg h0 h1
  simp only [animate_value]
  rw [if_neg (not_le.mpr h0), if_neg hlog.ne]
  rw [if_neg (by norm_num [moving_toward])]
  rw [if_neg (by norm_num [moving_toward])]
  norm_num

/-- Claim C10: a settled animator is a fixed point of the tethered tick:
with `animate` on, `loose` off, values equal to target, zero change,
stored drag in `(0, 1)` and `delta > 0`, `tick` returns the state
unchanged — the zero distance is replaced by the reserved epsilon, the
projected scalar rate is `0`, the coast branch keeps it at `0`, and no
exception and no drift occurs. -/
theorem tick_settled_fixed_point (s : AnimVec) (δ : ℝ)
    (ha : s.animate = true) (hl : s.loose = false)
    (ht : s.target = s.values)
    (hc : s.change = List.replicate s.values.length 0)
    (hd0 : 0 < s.drag_opt.getD default_drag)
    (hd1 : s.drag_opt.getD default_drag < 1)
    (hδ : 0 < δ) :
    AnimVec.tick s δ = some s := by
  obtain ⟨v, t, c, anim, lo, rc, ao, amo, dro⟩ := s
  simp only at ha hl ht hc hd0 hd1
  subst ha hl ht hc
  simp only [AnimVec.tick, if_true, Bool.false_eq_true, if_false]
  rw [zipWith_sub_self]
  simp only [dot_replicate_zero, Real.sqrt_zero, mul_zero, zero_mul,
    eq_self_iff_true, if_true, ne_eq, not_true_eq_false, if_false,
    animate_value_settled _ _ _ _ hd0 hd1, Option.map_some]
  simp only [Option.map_some', List.map_replicate, zero_mul, zero_div,
    zipWith_add_replicate]

/-- Witness for claim C10 at the state `s_settled` with `delta = 1`. -/
theorem tick_settled_fixed_point_witness :
    (s_settled.animate = true ∧ s_settled.loose = false ∧
      s_settled.target = s_settled.values ∧
      s_settled.change = List.replicate s_settled.values.length 0 ∧
      0 < s_settled.drag_opt.getD default_drag ∧
      s_settled.drag_opt.getD default_drag < 1 ∧ (0 : ℝ) < 1) ∧
    AnimVec.tick s_settled 1 = some s_settled :=
  ⟨⟨rfl, rfl, rfl, rfl, exp_neg_one_pos, exp_neg_one_lt_one, by norm_num⟩,
   tick_settled_fixed_point s_settled 1 rfl rfl rfl rfl exp_neg_one_pos
     exp_neg_one_lt_one (by norm_num)⟩

end Widgeon
